import Mathlib

/-!
Verification of the IBAPI connector stub
(src/Ecosystem/Connector/Main_Asset.py).

The source declares a single class, combining the external library's
request-issuing half (EClient) and callback-receiving half (EWrapper):

  class IBAPI(EWrapper, EClient):
      def __init__(self):
          EClient.__init__(self, self)

The shallow embedding below models Python object identities as naturals,
the state that EClient's own constructor establishes as an explicit
record, and construction as a pure function from the fresh identity to
the constructed object together with the list of outbound actions it
performed.  The external library's code is not part of the repository:
its initialization contract is modelled from the specification (section
6: the Requester half must be handed the callback target at
initialization; section 8: initialization performs no outbound request)
and each such definition is marked `Modelled from the spec`.
-/

/-- A Python object identity, as produced by the builtin id function. -/
abbrev ObjId := Nat

/-- Connection status of the Requester half.  Modelled from the spec:
no transport is opened in scope (section 5), and construction performs
no outbound request (section 8, property 2), so the library's client
starts life with no connection. -/
inductive ConnState
  | disconnected
  | connected
deriving DecidableEq, Repr

/-- An outbound action the connector could perform against the remote
gateway: issuing a named request, or opening the transport.  Modelled
from the spec (sections 5, 6): both kinds of outbound traffic are owned
by the external library and none is triggered in scope. -/
inductive GatewayAction
  | request (self : ObjId) (name : String)
  | connect (self : ObjId)
deriving DecidableEq, Repr

/-- Whether an action opens the transport. -/
def GatewayAction.isConnect : GatewayAction → Bool
  | .connect _ => true
  | .request _ _ => false

/-- The attributes established by the library's EClient constructor.
Modelled from the spec (section 6): initializing the request-issuing
half registers the callback target handed to it (the wrapper), and
leaves the transport closed. -/
structure EClientState where
  wrapper : ObjId
  connState : ConnState
deriving DecidableEq, Repr

/-- A constructed (or partially constructed) IBAPI object: its own
identity, the attribute set established by EClient's constructor when
that constructor has run, and whether EWrapper's own constructor ran. -/
structure IBAPIObj where
  self : ObjId
  eclientAttrs : Option EClientState
  ewrapperInitRan : Bool
deriving DecidableEq, Repr

/-- A freshly allocated object before any initializer has run. -/
def uninitObj (i : ObjId) : IBAPIObj :=
  { self := i, eclientAttrs := none, ewrapperInitRan := false }

namespace EClient

/-- The effect of EClient.__init__(self, wrapper) on the object under
construction.  Modelled from the spec (sections 6 and 8): it records
`wrapper` as the registered callback target, opens no connection, and
issues no request (the returned action list is empty). -/
def initOn (self : IBAPIObj) (wrapper : ObjId) : IBAPIObj × List GatewayAction :=
  ({ self with
      eclientAttrs := some { wrapper := wrapper, connState := .disconnected } },
   [])

end EClient

namespace EWrapper

/-- The effect of EWrapper.__init__(self), whatever attribute setup the
CallbackSink base performs in its own constructor.  Modelled from the
spec: its body is external; the flag records that it ran.  The source
never invokes it. -/
def initOn (self : IBAPIObj) : IBAPIObj × List GatewayAction :=
  ({ self with ewrapperInitRan := true }, [])

end EWrapper

namespace IBAPI

/-- The parameter list of IBAPI.__init__ exactly as written in the
source (line 15: the header is def __init__(self)). -/
def initParams : List String := ["self"]

/-- The methods the IBAPI class body defines itself (source lines
15-16): only the constructor. -/
def ownMethods : List String := ["__init__"]

/-- The qualified initializer calls the body of IBAPI.__init__ makes,
in order.  From source line 16: the body is the single statement
EClient.__init__(self, self). -/
def initCalls : List String := ["EClient.__init__"]

/-- IBAPI.__init__ run on a fresh object with identity `i`: the body is
exactly EClient.__init__(self, self) (source line 16), so the object
itself is passed as the callback target, and nothing else runs. -/
def init (i : ObjId) : IBAPIObj × List GatewayAction :=
  EClient.initOn (uninitObj i) i

end IBAPI

/-- The connector produced by the construction call IBAPI(), given the
fresh identity `i` the allocator hands the instance. -/
def construct (i : ObjId) : IBAPIObj :=
  (IBAPI.init i).1

/-- The outbound actions performed while constructing the instance. -/
def constructActions (i : ObjId) : List GatewayAction :=
  (IBAPI.init i).2

/-- The callback target the Requester half of an object has registered,
if its EClient half was initialized. -/
def requesterCallbackTarget (o : IBAPIObj) : Option ObjId :=
  o.eclientAttrs.map (fun s => s.wrapper)

/-- The connection status of an object's Requester half, if its EClient
half was initialized. -/
def connStateOf (o : IBAPIObj) : Option ConnState :=
  o.eclientAttrs.map (fun s => s.connState)

/-- An error raised inside the external library.  The repository gives
it no structure (spec section 7: no error taxonomy exists in scope). -/
structure LibError where
  msg : String
deriving DecidableEq, Repr

namespace EClient

/-- EClient.__init__ under exception semantics: the library's own
initialization either succeeds, in which case it behaves as
`EClient.initOn`, or raises a library error.  The outcome is a
parameter: the library's body is out of scope. -/
def initEx (outcome : Except LibError Unit) (self : IBAPIObj)
    (wrapper : ObjId) : Except LibError (IBAPIObj × List GatewayAction) :=
  match outcome with
  | .error e => .error e
  | .ok _ => .ok (EClient.initOn self wrapper)

end EClient

namespace IBAPI

/-- IBAPI.__init__ under exception semantics, translated from source
line 16: the single statement EClient.__init__(self, self) sits inside
no try/except, so whatever the library call produces, success or error,
passes through unchanged. -/
def initEx (outcome : Except LibError Unit) (i : ObjId) :
    Except LibError (IBAPIObj × List GatewayAction) :=
  EClient.initEx outcome (uninitObj i) i

end IBAPI

/-- A method name of the Python classes involved. -/
abbrev MethodName := String

namespace IBAPI

/-- Python attribute lookup on class IBAPI(EWrapper, EClient), source
line 5: the class's own namespace defines only __init__ (lines 15-16),
with the value `ibapiInit`; any other name falls through the method
resolution order to EWrapper first, then EClient.  `α` stands for the
method implementations of the external library, which this repository
consumes without defining. -/
def getattrOf {α : Type} (ibapiInit : α) (ew ec : MethodName → Option α)
    (m : MethodName) : Option α :=
  if m = "__init__" then some ibapiInit
  else
    match ew m with
    | some f => some f
    | none => ec m

end IBAPI

/-- Attribute lookup as the external library itself would resolve it
over its two halves, EWrapper consulted before EClient: the reference
the stub's inherited behavior is compared against. -/
def libGetattr {α : Type} (ew ec : MethodName → Option α)
    (m : MethodName) : Option α :=
  match ew m with
  | some f => some f
  | none => ec m

namespace IBAPI

/-- A use-path call of method `m` on a constructed IBAPI instance,
each library method summarized by the outcome its implementation
produces when invoked (success value or raised library error), the
construction outcome standing in for __init__, and `none` for an absent
method.  The class body (source lines 5-16) defines no method besides
__init__ and contains no try/except, so the call is exactly attribute
lookup followed by the resolved implementation, with no handler of the
stub in between: the outcome reaches the caller as is. -/
def callOn {α : Type} (initOutcome : Except LibError α)
    (ew ec : MethodName → Option (Except LibError α)) (m : MethodName) :
    Option (Except LibError α) :=
  IBAPI.getattrOf initOutcome ew ec m

end IBAPI

/-- A sample method-outcome table for the CallbackSink half in which no
method is defined, used to instantiate the error-propagation theorem at
a concrete input. -/
def sampleRaisingEWrapper : MethodName → Option (Except LibError Unit) :=
  fun _ => none

/-- A sample method-outcome table for the Requester half in which the
connection-setup method raises a library error, used to instantiate the
error-propagation theorem at a concrete input. -/
def sampleRaisingEClient : MethodName → Option (Except LibError Unit) :=
  fun m =>
    if m = "connect" then some (Except.error { msg := "connection refused" })
    else none

/-- An event of an execution: a construction call IBAPI() producing the
instance with identity `i`, or an outbound request issued through the
instance with identity `i`. -/
inductive Event
  | constructEv (i : ObjId)
  | requestEv (i : ObjId) (name : String)
deriving DecidableEq, Repr

/-- Whether a trace is executable starting from the set `cs` of already
constructed instances: Python call semantics let a request be issued
through an instance only once that instance exists, i.e. only after its
construction call returned, and an identity is allocated at most
once. -/
def validFrom (cs : List ObjId) : List Event → Bool
  | [] => true
  | .constructEv i :: rest => (decide (i ∉ cs)) && validFrom (i :: cs) rest
  | .requestEv i _ :: rest => (decide (i ∈ cs)) && validFrom cs rest

/-- Whether a trace is executable from process start, when no instance
exists yet. -/
def validTrace (t : List Event) : Bool :=
  validFrom [] t

/-- Renaming of one object identity to another, applied to every
identity-valued field of an object: two constructions are deterministic
up to identity exactly when renaming carries one result to the other. -/
def renameObj (i j : ObjId) (o : IBAPIObj) : IBAPIObj :=
  { self := if o.self = i then j else o.self,
    eclientAttrs := o.eclientAttrs.map
      (fun s => { s with wrapper := if s.wrapper = i then j else s.wrapper }),
    ewrapperInitRan := o.ewrapperInitRan }

/-- A sample method table for the CallbackSink half, used to instantiate
the conformance theorems at a concrete input. -/
def sampleEWrapper : MethodName → Option Nat :=
  fun m => if m = "winError" then some 1 else none

/-- A sample method table for the Requester half, used to instantiate
the conformance theorems at a concrete input. -/
def sampleEClient : MethodName → Option Nat :=
  fun m => if m = "reqIds" then some 2 else none

/-- Helper for the temporal claim: in a trace executable from `cs`, any
request issued through instance `i` has `i` either already constructed
in `cs` or constructed earlier in the trace. -/
theorem constructed_before_request (cs : List ObjId) (pre post : List Event)
    (i : ObjId) (n : String)
    (hv : validFrom cs (pre ++ Event.requestEv i n :: post) = true) :
    i ∈ cs ∨ Event.constructEv i ∈ pre := by
  induction pre generalizing cs with
  | nil =>
      simp only [List.nil_append, validFrom, Bool.and_eq_true,
        decide_eq_true_eq] at hv
      exact Or.inl hv.1
  | cons ev rest ih =>
      cases ev with
      | constructEv j =>
          simp only [List.cons_append, validFrom, Bool.and_eq_true,
            decide_eq_true_eq] at hv
          rcases ih (j :: cs) hv.2 with h | h
          · rcases List.mem_cons.mp h with h | h
            · exact Or.inr (h ▸ List.mem_cons_self _ _)
            · exact Or.inl h
          · exact Or.inr (List.mem_cons_of_mem _ h)
      | requestEv j m =>
          simp only [List.cons_append, validFrom, Bool.and_eq_true,
            decide_eq_true_eq] at hv
          rcases ih cs hv.2 with h | h
          · exact Or.inl h
          · exact Or.inr (List.mem_cons_of_mem _ h)

/-- Claim C1: for every construction call, the constructed connector's
Requester half has registered as callback target the very identity of
the constructed object itself. -/
theorem callback_target_is_self (i : ObjId) :
    requesterCallbackTarget (construct i) = some i ∧
      (construct i).self = i :=
  ⟨rfl, rfl⟩

/-- Claim C2: assuming the external library's own initialization
succeeds, construction raises no error, returns the constructed
instance, and the list of outbound actions it performed is empty: no
request reaches a remote gateway. -/
theorem construction_infallible (i : ObjId)
    (outcome : Except LibError Unit) (h : outcome = .ok ()) :
    IBAPI.initEx outcome i = .ok (construct i, []) ∧
      constructActions i = [] := by
  subst h
  exact ⟨rfl, rfl⟩

/-- Witness for claim C2 at identity 0 with a succeeding library
initialization. -/
theorem construction_infallible_witness :
    IBAPI.initEx (.ok ()) 0 = .ok (construct 0, []) ∧
      constructActions 0 = [] :=
  construction_infallible 0 (.ok ()) rfl

/-- Claim C3: whichever method tables the external library's two halves
carry, any method required by either half (present in the EWrapper
table or in the EClient table) is present on the IBAPI class through
attribute lookup. -/
theorem dual_interface_conformance {α : Type} (ibapiInit : α)
    (ew ec : MethodName → Option α) (m : MethodName)
    (h : (ew m).isSome = true ∨ (ec m).isSome = true) :
    (IBAPI.getattrOf ibapiInit ew ec m).isSome = true := by
  unfold IBAPI.getattrOf
  split
  · rfl
  · cases hew : ew m with
    | some f => rfl
    | none =>
        rcases h with h | h
        · rw [hew] at h
          simp at h
        · exact h

/-- Witness for claim C3: the sample Requester method reqIds is present
on IBAPI. -/
theorem dual_interface_conformance_witness :
    (IBAPI.getattrOf 0 sampleEWrapper sampleEClient "reqIds").isSome = true :=
  dual_interface_conformance 0 sampleEWrapper sampleEClient "reqIds"
    (Or.inr (by decide))

/-- Claim C4: in every executable trace, any request issued through an
instance is preceded in the trace by that instance's construction call,
and the construction call itself performs the callback wiring, so no
request is ever issued through an unwired connector. -/
theorem never_request_while_unwired (t pre post : List Event) (i : ObjId)
    (n : String) (hv : validTrace t = true)
    (hsplit : t = pre ++ Event.requestEv i n :: post) :
    Event.constructEv i ∈ pre ∧
      requesterCallbackTarget (construct i) = some i := by
  subst hsplit
  rcases constructed_before_request [] pre post i n hv with h | h
  · exact absurd h (List.not_mem_nil i)
  · exact ⟨h, rfl⟩

/-- Witness for claim C4 on the concrete trace that constructs instance
0 and then issues one request through it. -/
theorem never_request_while_unwired_witness :
    Event.constructEv 0 ∈ [Event.constructEv 0] ∧
      requesterCallbackTarget (construct 0) = some 0 :=
  never_request_while_unwired
    [Event.constructEv 0, Event.requestEv 0 "reqMktData"]
    [Event.constructEv 0] [] 0 "reqMktData" (by decide) rfl

/-- Claim C5: any error the external library raises propagates through
the connector unmodified, both during construction and during use.  If
the library's initializer raises `e`, IBAPI.__init__ returns exactly
`e`; and for any method other than __init__ (connection setup,
protocol-data handling, request issuing — every use-path operation is
such a method), whatever implementation tables the library carries, if
the library's own resolution of the method yields the raised error `e`,
a call through the IBAPI instance observes exactly `some (error e)`:
the stub neither catches nor translates it. -/
theorem errors_propagate_unmodified {α : Type} (i : ObjId) (e : LibError)
    (initOutcome : Except LibError α)
    (ew ec : MethodName → Option (Except LibError α)) (m : MethodName)
    (hm : m ≠ "__init__")
    (hraise : libGetattr ew ec m = some (Except.error e)) :
    IBAPI.initEx (Except.error e) i = Except.error e ∧
      IBAPI.callOn initOutcome ew ec m = some (Except.error e) := by
  constructor
  · rfl
  · unfold IBAPI.callOn IBAPI.getattrOf
    rw [if_neg hm]
    unfold libGetattr at hraise
    exact hraise

/-- Witness for claim C5: the library's connection-setup method raises
a connection-refused error; the same error is observed through the
IBAPI instance on the use path, and through IBAPI.__init__ on the
construction path. -/
theorem errors_propagate_unmodified_witness :
    IBAPI.initEx (Except.error { msg := "connection refused" }) 0 =
        Except.error { msg := "connection refused" } ∧
      IBAPI.callOn (Except.ok ()) sampleRaisingEWrapper sampleRaisingEClient
          "connect" =
        some (Except.error { msg := "connection refused" }) :=
  errors_propagate_unmodified 0 { msg := "connection refused" }
    (Except.ok ()) sampleRaisingEWrapper sampleRaisingEClient "connect"
    (by decide) rfl

/-- Claim C6: the constructor's parameter list is exactly the implicit
instance, the class body defines no other method through which a
parameterized construction could vary, and the constructed state is a
function of the instance identity alone. -/
theorem construct_no_parameters :
    IBAPI.initParams = ["self"] ∧ IBAPI.ownMethods = ["__init__"] ∧
      ∀ i : ObjId,
        IBAPI.init i =
          ({ self := i,
             eclientAttrs :=
               some { wrapper := i, connState := .disconnected },
             ewrapperInitRan := false }, []) :=
  ⟨rfl, rfl, fun _ => rfl⟩

/-- Claim C7: the IBAPI class body defines only the constructor, and
every other attribute resolves on IBAPI to exactly the implementation
the external library's own resolution over its two halves yields. -/
theorem inherited_unchanged {α : Type} (ibapiInit : α)
    (ew ec : MethodName → Option α) (m : MethodName)
    (h : m ≠ "__init__") :
    IBAPI.ownMethods = ["__init__"] ∧
      IBAPI.getattrOf ibapiInit ew ec m = libGetattr ew ec m := by
  refine ⟨rfl, ?_⟩
  unfold IBAPI.getattrOf libGetattr
  rw [if_neg h]

/-- Witness for claim C7: the sample Requester method reqIds resolves
on IBAPI to the library's own implementation. -/
theorem inherited_unchanged_witness :
    IBAPI.ownMethods = ["__init__"] ∧
      IBAPI.getattrOf 0 sampleEWrapper sampleEClient "reqIds" =
        libGetattr sampleEWrapper sampleEClient "reqIds" :=
  inherited_unchanged 0 sampleEWrapper sampleEClient "reqIds" (by decide)

/-- Claim C8: the body of IBAPI.__init__ never invokes
EWrapper.__init__, so the CallbackSink base's own constructor effect
(which would set the flag) is absent, and the constructed state is
exactly the state EClient.__init__ establishes on the fresh object. -/
theorem ewrapper_init_not_invoked (i : ObjId) :
    "EWrapper.__init__" ∉ IBAPI.initCalls ∧
      (construct i).ewrapperInitRan = false ∧
      (EWrapper.initOn (construct i)).1.ewrapperInitRan = true ∧
      construct i = (EClient.initOn (uninitObj i) i).1 :=
  ⟨by decide, rfl, rfl, rfl⟩

/-- Claim C9: immediately after construction the connector's Requester
half is in the disconnected state, and no action of the construction
opened the transport. -/
theorem disconnected_after_construction (i : ObjId) :
    connStateOf (construct i) = some ConnState.disconnected ∧
      (constructActions i).filter GatewayAction.isConnect = [] :=
  ⟨rfl, rfl⟩

/-- Claim C10: construction is deterministic up to object identity:
renaming one call's identity to another's carries the first constructed
state exactly onto the second, and each instance's callback field
points at that instance's own self. -/
theorem construction_deterministic (i j : ObjId) :
    renameObj i j (construct i) = construct j ∧
      requesterCallbackTarget (construct i) = some (construct i).self := by
  constructor
  · simp [renameObj, construct, IBAPI.init, EClient.initOn, uninitObj]
  · rfl
